import Mathlib

/-!
Verification development for the storage layer of
`python/ray/train/_internal/storage.py`.

The Python module is shallowly embedded below:

* Pure path manipulation (`os.path.join`, the `checkpoint_NNNNNN` naming
  scheme, URI prefix stripping) is embedded as executable Lean functions
  on `String` / `List Char`.
* Filesystem state is embedded as an explicit `FsState` (a set of existing
  directory paths and of existing files with their byte sizes); the pyarrow
  `FileSystem` handle is an abstract `FileSystem` value.
* Fallible operations return `Except StorageError`; operations whose outcome
  depends on the external environment (whether a `create_dir` or a copy
  succeeds) take explicit outcome flags so that all observable control paths
  of the Python code are represented.
* `pyarrow.fs.FileSystem.get_file_info` never raises for a missing path: it
  returns a `FileInfo` whose type is `NotFound` (the module's own
  `_exists_at_fs_path` depends on exactly this behaviour), which is embedded
  by the total function `getFileInfoType`.
-/

/-- The distinguishable error outcomes of the storage module.
`valueError` is the `ValueError` raised by `get_fs_and_path`;
`trialUnset` is the `RuntimeError` raised by the `trial_*_path` properties;
`unreachable p` is the `RuntimeError` raised by `_check_validation_file`
(it carries the configured `storage_path` in its message);
`notFoundError` is `FileNotFoundError`; `ioError` stands for an `OSError`
from a filesystem call; `transferError` is a failure inside
`pyarrow.fs.copy_files`. -/
inductive StorageError where
  | valueError : StorageError
  | trialUnset : StorageError
  | unreachable (storage_path : String) : StorageError
  | notFoundError : StorageError
  | ioError : StorageError
  | transferError : StorageError
deriving DecidableEq

/-- Abstract pyarrow filesystem handles.  `localFS` is the local filesystem,
`auto sch q` is the handle resolved by `pyarrow.fs.FileSystem.from_uri` from a
URI with scheme `sch` and query `q`, and `custom i` is a user-supplied custom
filesystem. -/
inductive FileSystem where
  | localFS : FileSystem
  | auto (scheme : String) (query : String) : FileSystem
  | custom (id : Nat) : FileSystem
deriving DecidableEq

/-- State of one filesystem: the directory paths that exist and the files
that exist together with their sizes in bytes. -/
structure FsState where
  dirs : List String
  files : List (String × Nat)
deriving DecidableEq

/-- `pyarrow.fs.FileType` of a path (file / directory / not found). -/
inductive FileType where
  | file : FileType
  | dir : FileType
  | notFound : FileType
deriving DecidableEq

/-- `FileInfo.is_file`. -/
def FileType.isFile : FileType → Bool
  | .file => true
  | _ => false

/-- `fs.get_file_info(path)`: total, returns a `NotFound` info for missing
paths instead of raising (documented pyarrow behaviour, relied upon by
`_exists_at_fs_path` in the same module). -/
def getFileInfoType (st : FsState) (p : String) : FileType :=
  if st.files.any (fun f => f.1 == p) then .file
  else if st.dirs.contains p then .dir
  else .notFound

/-- `_exists_at_fs_path`: true iff `get_file_info` does not report `NotFound`. -/
def exists_at_fs_path (st : FsState) (p : String) : Bool :=
  getFileInfoType st p != .notFound

/-- `_is_directory` (storage.py lines 249-257): returns
`not fs.get_file_info(fs_path).is_file`.  No exception is raised on a missing
path because `get_file_info` reports `NotFound` instead of raising. -/
def is_directory (st : FsState) (p : String) : Except StorageError Bool :=
  .ok (!(getFileInfoType st p).isFile)

/-- `fs.create_dir(path)` effect on the filesystem state. -/
def createDir (st : FsState) (p : String) : FsState :=
  { st with dirs := p :: st.dirs }

/-- Effect of `open_output_stream(path)` immediately closed: a zero-byte file. -/
def createFile (st : FsState) (p : String) : FsState :=
  { st with files := (p, 0) :: st.files }

/-- `os.path.join(a, b)` restricted to two components (POSIX semantics as used
throughout storage.py): an absolute `b` replaces `a`; otherwise the separator
is inserted only when `a` is nonempty and does not already end with one. -/
def osPathJoin (a b : String) : String :=
  if "/".data.isPrefixOf b.data then b
  else if a = "" then b
  else if "/".data.isSuffixOf a.data then a ++ b
  else a ++ "/" ++ b

/-- Decimal digit `d` (`d < 10`) as a character. -/
def digitChar (d : Nat) : Char := Char.ofNat (48 + d)

/-- Big-endian decimal digits of `n`, with explicit structural fuel
(`fuel ≥ n` suffices, each recursive step divides the value by 10). -/
def natDigitsChars : Nat → Nat → List Char
  | 0, _ => []
  | _ + 1, 0 => []
  | fuel + 1, n + 1 => natDigitsChars fuel ((n + 1) / 10) ++ [digitChar ((n + 1) % 10)]

/-- Decimal representation of `n` (at least one digit). -/
def decChars (n : Nat) : List Char :=
  if n = 0 then ['0'] else natDigitsChars n n

/-- Left-pad a character list with '0' up to width `w`
(the effect of Python's `{:06d}` format). -/
def padZeros (w : Nat) (l : List Char) : List Char :=
  List.replicate (w - l.length) '0' ++ l

/-- `StorageContext._make_checkpoint_dir_name` (storage.py lines 647-650):
`f"checkpoint_{index:06d}"`. -/
def makeCheckpointDirName (index : Nat) : String :=
  String.mk ("checkpoint_".data ++ padZeros 6 (decChars index))

/-- First occurrence split: `splitFirst? sep l = some (a, b)` iff
`l = a ++ sep ++ b` with `a` shortest. -/
def splitFirst? (sep : List Char) : List Char → Option (List Char × List Char)
  | [] => if sep.isPrefixOf ([] : List Char) then some ([], []) else none
  | c :: rest =>
    if sep.isPrefixOf (c :: rest) then some ([], (c :: rest).drop sep.length)
    else (splitFirst? sep rest).map (fun p => (c :: p.1, p.2))

/-- A character allowed in a URI scheme. -/
def isSchemeChar (c : Char) : Bool :=
  c.isAlpha || c.isDigit || c == '+' || c == '-' || c == '.'

/-- Modelled from the spec: the URI grammar `scheme://authority/path?query`
used by `ray.air._internal.uri_utils.is_uri` and
`pyarrow.fs.FileSystem.from_uri` (neither is part of storage.py, which only
calls them).  Returns `(scheme, authorityAndPath, query?)`: everything
between `://` and the optional `?` is the prefix-stripped filesystem path. -/
def parseUri (s : String) : Option (String × String × Option String) :=
  match splitFirst? "://".data s.data with
  | none => none
  | some (sch, rest) =>
    if sch ≠ [] ∧ sch.all isSchemeChar then
      match splitFirst? "?".data rest with
      | none => some (String.mk sch, String.mk rest, none)
      | some (hp, q) => some (String.mk sch, String.mk hp, some (String.mk q))
    else none

/-- `ray.air._internal.uri_utils.is_uri`, modelled from the spec:
a URI scheme is present. -/
def is_uri (s : String) : Bool := (parseUri s).isSome

/-- Render the URI from its parsed components (inverse of `parseUri`). -/
def renderUri (sch hp : String) (q : Option String) : String :=
  sch ++ "://" ++ hp ++ (match q with | none => "" | some qs => "?" ++ qs)

/-- Modelled from the spec: `pyarrow.fs.FileSystem.from_uri`.  A URI
auto-resolves to the handle for its scheme/query with the prefix-stripped
path; a plain path resolves to the local filesystem unchanged. -/
def fromUri (s : String) : FileSystem × String :=
  match parseUri s with
  | some (sch, hp, q) => (.auto sch (q.getD ""), hp)
  | none => (.localFS, s)

/-- `get_fs_and_path` (storage.py lines 277-312). -/
def get_fs_and_path (storage_path : String) (storage_filesystem : Option FileSystem) :
    Except StorageError (FileSystem × String) :=
  match storage_filesystem with
  | some fs =>
    if is_uri storage_path then .error .valueError
    else .ok (fs, storage_path)
  | none => .ok (fromUri storage_path)

/-- The retained URI prefix (`storage_prefix` in the source): either the
scheme/query stripped from a URI, the trivial prefix `URI<.>` of a plain
path, or the assertion failure of `URI.rstrip_subpath` when the given
subpath is not what resolution stripped. -/
inductive StoragePfx where
  | uriPfx (scheme : String) (query : Option String) : StoragePfx
  | dot : StoragePfx
  | assertFail : StoragePfx
deriving DecidableEq

/-- Modelled from the spec: `URI(storage_path).rstrip_subpath(fs_path)`
(`ray.air._internal.uri_utils`, not part of storage.py).  Strips the
resolved filesystem path back off the user-supplied path, retaining
scheme and query so reconstructed URIs round-trip. -/
def rstripSubpath (storage_path fs_path : String) : StoragePfx :=
  match parseUri storage_path with
  | some (sch, hp, q) => if hp = fs_path then .uriPfx sch q else .assertFail
  | none => if storage_path = fs_path then .dot else .assertFail

/-- Modelled from the spec: `str(storage_prefix / p)`, joining the retained
prefix back onto a prefix-stripped path. -/
def pfxJoin : StoragePfx → String → String
  | .uriPfx sch q, p => renderUri sch p q
  | .dot, p => p
  | .assertFail, p => p

/-- `ray.tune.syncer.SyncConfig`: the two fields consumed by storage.py. -/
structure SyncConfig where
  sync_period : Nat
  sync_timeout : Nat
deriving DecidableEq

/-- `_FilesystemSyncer(storage_filesystem, sync_period, sync_timeout)`
as instantiated by `StorageContext.__init__`. -/
structure Syncer where
  storage_filesystem : FileSystem
  sync_period : Nat
  sync_timeout : Nat
deriving DecidableEq

/-- `StorageContext` after `__init__` (storage.py lines 354-505).
`storagePfx` embeds the `storage_prefix` attribute. -/
structure StorageContext where
  storage_local_path : String
  storage_path : String
  experiment_dir_name : String
  trial_dir_name : Option String
  current_checkpoint_index : Nat
  storage_filesystem : FileSystem
  storage_fs_path : String
  storagePfx : StoragePfx
  syncer : Option Syncer
deriving DecidableEq

/-- `StorageContext.experiment_fs_path` property. -/
def StorageContext.experiment_fs_path (ctx : StorageContext) : String :=
  osPathJoin ctx.storage_fs_path ctx.experiment_dir_name

/-- `StorageContext.trial_fs_path` property: raises if `trial_dir_name`
is not set. -/
def StorageContext.trial_fs_path (ctx : StorageContext) : Except StorageError String :=
  match ctx.trial_dir_name with
  | none => .error .trialUnset
  | some t => .ok (osPathJoin ctx.experiment_fs_path t)

/-- `StorageContext.checkpoint_fs_path` property. -/
def StorageContext.checkpoint_fs_path (ctx : StorageContext) : Except StorageError String :=
  (ctx.trial_fs_path).map
    (fun t => osPathJoin t (makeCheckpointDirName ctx.current_checkpoint_index))

/-- The marker path used by `_create_validation_file` / `_check_validation_file`:
`os.path.join(self.experiment_fs_path, ".validate_storage_marker")`. -/
def validationFilePath (ctx : StorageContext) : String :=
  osPathJoin ctx.experiment_fs_path ".validate_storage_marker"

/-- Outcome flags for the environment-dependent filesystem calls made during
construction: whether `create_dir` succeeds and whether
`open_output_stream` succeeds. -/
structure FsEnv where
  createDirOk : Bool
  openOk : Bool
deriving DecidableEq

/-- `StorageContext._create_validation_file` (storage.py lines 507-515):
creates the experiment directory, then writes the zero-byte marker file.
Failures of either filesystem call propagate (both are direct calls on the
pyarrow handle, with no try/except around them). -/
def createValidationFile (ctx : StorageContext) (env : FsEnv) (st : FsState) :
    Except StorageError FsState :=
  if env.createDirOk then
    if env.openOk then
      .ok (createFile (createDir st ctx.experiment_fs_path) (validationFilePath ctx))
    else .error .ioError
  else .error .ioError

/-- `StorageContext._check_validation_file` (storage.py lines 517-525):
raises a `RuntimeError` carrying `storage_path` when the marker is absent. -/
def checkValidationFile (ctx : StorageContext) (st : FsState) :
    Except StorageError Unit :=
  if exists_at_fs_path st (validationFilePath ctx) then .ok ()
  else .error (.unreachable ctx.storage_path)

/-- Python's `storage_path or self.storage_local_path`: `None` and the empty
string are both replaced by the local path. -/
def resolvedStoragePath (storage_path? : Option String) (storage_local_path : String) :
    String :=
  match storage_path? with
  | some sp => if sp = "" then storage_local_path else sp
  | none => storage_local_path

/-- `StorageContext.__init__` (storage.py lines 436-492).
`default_results_dir` is the value of `_get_defaults_results_dir()`;
`env`/`st` describe the filesystem the validation marker is written to.
Note Python's `storage_path or self.storage_local_path` also replaces an
empty string.  The syncer is instantiated iff a custom filesystem was
provided or the resolved path differs from the local cache path, and then
the validation marker is created and checked. -/
def StorageContext.create (storage_path? : Option String) (experiment_dir_name : String)
    (sync_config : SyncConfig) (storage_filesystem : Option FileSystem)
    (trial_dir_name : Option String) (current_checkpoint_index : Nat)
    (default_results_dir : String) (env : FsEnv) (st : FsState) :
    Except StorageError (StorageContext × FsState) :=
  let storage_local_path := default_results_dir
  let storage_path := resolvedStoragePath storage_path? storage_local_path
  match get_fs_and_path storage_path storage_filesystem with
  | .error e => .error e
  | .ok (fs, fs_path) =>
    let syncing_needed := storage_filesystem.isSome || fs_path != storage_local_path
    let ctx : StorageContext :=
      { storage_local_path := storage_local_path
        storage_path := storage_path
        experiment_dir_name := experiment_dir_name
        trial_dir_name := trial_dir_name
        current_checkpoint_index := current_checkpoint_index
        storage_filesystem := fs
        storage_fs_path := fs_path
        storagePfx := rstripSubpath storage_path fs_path
        syncer :=
          if syncing_needed then
            some { storage_filesystem := fs
                   sync_period := sync_config.sync_period
                   sync_timeout := sync_config.sync_timeout }
          else none }
    match createValidationFile ctx env st with
    | .error e => .error e
    | .ok st' =>
      match checkValidationFile ctx st' with
      | .error e => .error e
      | .ok _ => .ok (ctx, st')

/-- `ray.train._checkpoint.Checkpoint`: an opaque (filesystem, path) pair. -/
structure Checkpoint where
  filesystem : FileSystem
  path : String
deriving DecidableEq

/-- Strip a literal leading string, if present. -/
def stripLead? (lead s : String) : Option String :=
  if lead.data.isPrefixOf s.data then some (String.mk (s.data.drop lead.data.length))
  else none

/-- Effect of `pyarrow.fs.copy_files(srcPath -> destPath)` on the destination
filesystem state: every file/directory of `source` at or under `srcPath` is
mirrored under `destPath` with the same size.  The source state is read,
never written. -/
def copyInto (durable source : FsState) (srcPath destPath : String) : FsState :=
  let copiedFiles := source.files.filterMap (fun f =>
    if f.1 = srcPath then some (destPath, f.2)
    else match stripLead? (srcPath ++ "/") f.1 with
      | some rest => some (osPathJoin destPath rest, f.2)
      | none => none)
  let copiedDirs := source.dirs.filterMap (fun d =>
    match stripLead? (srcPath ++ "/") d with
    | some rest => some (osPathJoin destPath rest)
    | none => none)
  { durable with files := copiedFiles ++ durable.files, dirs := copiedDirs ++ durable.dirs }

/-- The two filesystems visible to `persist_current_checkpoint` plus the
outcome flags of its environment-dependent calls (`create_dir` on the
storage filesystem, and the `copy_files` transfer). -/
structure PersistWorld where
  durable : FsState
  source : FsState
  createDirOk : Bool
  copyOk : Bool
deriving DecidableEq

/-- `StorageContext.persist_current_checkpoint` (storage.py lines 527-576).
The initial `logger.info` call formats `self.checkpoint_fs_path`, so a
missing `trial_dir_name` raises there, before anything else; then the
validation marker is checked (`_check_validation_file`), then
`create_dir(checkpoint_fs_path)`, then the copy, and finally a new
`Checkpoint(storage_filesystem, checkpoint_fs_path)` is returned.  Every
error propagates unmodified and the source filesystem is never written. -/
def StorageContext.persist_current_checkpoint (ctx : StorageContext)
    (checkpoint : Checkpoint) (w : PersistWorld) :
    Except StorageError Checkpoint × PersistWorld :=
  match ctx.checkpoint_fs_path with
  | .error e => (.error e, w)
  | .ok ckptPath =>
    match checkValidationFile ctx w.durable with
    | .error e => (.error e, w)
    | .ok _ =>
      if w.createDirOk then
        let w1 := { w with durable := createDir w.durable ckptPath }
        if w.copyOk then
          let w2 := { w1 with
            durable := copyInto w1.durable w1.source checkpoint.path ckptPath }
          (.ok { filesystem := ctx.storage_filesystem, path := ckptPath }, w2)
        else (.error .transferError, w1)
      else (.error .ioError, w)

/-- What `_is_directory` reports for the download source: a file, a directory
with its listed contents, or nothing at that path (which `_is_directory`
also reports as a directory, since `get_file_info` returns `NotFound`
rather than raising). -/
inductive SrcEntry where
  | file (content : Nat) : SrcEntry
  | dir (contents : List (String × Nat)) : SrcEntry
  | notFound : SrcEntry
deriving DecidableEq

/-- `srcTreatedAsDir src = true` iff `_is_directory` returns true for the
source, i.e. whenever it is not a regular file. -/
def srcTreatedAsDir : SrcEntry → Bool
  | .file _ => false
  | _ => true

/-- What exists at the local destination path: a single file with its
content, or a directory with its contents. -/
inductive LocalEntry where
  | file (content : Nat) : LocalEntry
  | dir (contents : List (String × Nat)) : LocalEntry
deriving DecidableEq

/-- The local destination of `_download_from_fs_path`: what is at
`local_path` itself and whether its parent directories exist. -/
structure LocalDest where
  entry : Option LocalEntry
  parentExists : Bool
deriving DecidableEq

/-- Outcome of the `pyarrow.fs.copy_files` transfer: whether it fails, and
what it managed to write at the destination before failing (`dirWritten`
for a directory destination, `fileWritten` for a file destination where
`none` means the output file was never created). -/
structure CopyOutcome where
  fails : Bool
  dirWritten : List (String × Nat)
  fileWritten : Option Nat
deriving DecidableEq

/-- `shutil.rmtree(local_path, ignore_errors=True)`: removes a directory
tree; on a regular file it raises `NotADirectoryError`, which
`ignore_errors=True` swallows, so the file is left in place; on a missing
path the error is likewise swallowed. -/
def rmtreeIgnoreErrors : Option LocalEntry → Option LocalEntry
  | some (.dir _) => none
  | e => e

/-- The copy-and-cleanup tail of `_download_from_fs_path`: run the transfer,
and on failure remove `local_path` (via `shutil.rmtree(...,
ignore_errors=True)`) only when it did not exist before the call. -/
def download_copy (src : SrcEntry) (st : LocalDest) (outcome : CopyOutcome)
    (existsBefore : Bool) : Except StorageError Unit × LocalDest :=
  match src with
  | .notFound =>
    let e := if existsBefore then st.entry else rmtreeIgnoreErrors st.entry
    (.error .notFoundError, { st with entry := e })
  | .file c =>
    match st.entry with
    | some (.dir _) => (.error .transferError, st)
    | _ =>
      if outcome.fails then
        let written :=
          match outcome.fileWritten with
          | some v => some (LocalEntry.file v)
          | none => st.entry
        let e := if existsBefore then written else rmtreeIgnoreErrors written
        (.error .transferError, { st with entry := e })
      else (.ok (), { st with entry := some (.file c) })
  | .dir contents =>
    if outcome.fails then
      let written :=
        match st.entry with
        | some (.dir _) => some (LocalEntry.dir outcome.dirWritten)
        | e => e
      let e := if existsBefore then written else rmtreeIgnoreErrors written
      (.error .transferError, { st with entry := e })
    else
      let e :=
        match st.entry with
        | some (.dir _) => some (LocalEntry.dir contents)
        | e => e
      (.ok (), { st with entry := e })

/-- `_download_from_fs_path` (storage.py lines 124-175).  Records whether the
destination existed, creates `local_path` itself (directory source) or its
parent (file source) with `mkdir(parents=True, exist_ok=True)` — which
raises `FileExistsError` when a directory is requested at a path occupied
by a regular file — then copies, cleaning up on failure only when the
destination did not previously exist.  The advisory file lock serialises
concurrent downloads and has no effect on this single-process state. -/
def download_from_fs_path (src : SrcEntry) (st : LocalDest) (outcome : CopyOutcome) :
    Except StorageError Unit × LocalDest :=
  let existsBefore := st.entry.isSome
  if srcTreatedAsDir src then
    match st.entry with
    | some (.file _) => (.error .ioError, { st with parentExists := true })
    | some (.dir c) =>
      download_copy src { entry := some (.dir c), parentExists := true } outcome existsBefore
    | none =>
      download_copy src { entry := some (.dir []), parentExists := true } outcome existsBefore
  else
    download_copy src { st with parentExists := true } outcome existsBefore

/-- Scan a character-class body for its closing bracket; returns the body
and the remaining pattern.  `none` when the class is unterminated. -/
def findCloseAux : List Char → Option (List Char × List Char)
  | [] => none
  | ']' :: rest => some ([], rest)
  | c :: rest => (findCloseAux rest).map (fun p => (c :: p.1, p.2))

/-- `fnmatch` bracket parsing: after an optional leading `!`, a `]` in first
position belongs to the class body. -/
def findClose : List Char → Option (List Char × List Char)
  | ']' :: rest => (findCloseAux rest).map (fun p => (']' :: p.1, p.2))
  | l => findCloseAux l

/-- Split the pattern after a `[` into (negated?, class body, rest). -/
def splitClass? (l : List Char) : Option (Bool × List Char × List Char) :=
  match l with
  | '!' :: rest => (findClose rest).map (fun p => (true, p.1, p.2))
  | rest => (findClose rest).map (fun p => (false, p.1, p.2))

/-- Membership of a character in a class body, with `a-b` ranges
(a trailing `-` is a literal). -/
def classMatch : List Char → Char → Bool
  | a :: '-' :: b :: rest, c =>
    (decide (a.toNat ≤ c.toNat) && decide (c.toNat ≤ b.toNat)) || classMatch rest c
  | a :: rest, c => a == c || classMatch rest c
  | [], _ => false

/-- Shell-glob matching of `fnmatch.fnmatch(name, pat)` (POSIX, where
`normcase` is the identity): `*` matches any sequence, `?` any single
character, `[...]`/`[!...]` character classes (an unterminated `[` is a
literal).  The structural fuel only needs to cover one unit per recursive
call; `|pat| + |s| + 1` always suffices because every call strictly shrinks
the combined length of pattern and string. -/
def globMatchAux : Nat → List Char → List Char → Bool
  | 0, _, _ => false
  | fuel + 1, pat, s =>
    match pat, s with
    | [], [] => true
    | [], _ :: _ => false
    | '*' :: ps, s =>
      globMatchAux fuel ps s ||
        (match s with
         | [] => false
         | _ :: s2 => globMatchAux fuel ('*' :: ps) s2)
    | '?' :: ps, _ :: s2 => globMatchAux fuel ps s2
    | '?' :: _, [] => false
    | '[' :: ps, s =>
      (match splitClass? ps with
       | some (neg, body, rest) =>
         (match s with
          | [] => false
          | c :: s2 => (neg != classMatch body c) && globMatchAux fuel rest s2)
       | none =>
         (match s with
          | '[' :: s2 => globMatchAux fuel ps s2
          | _ => false))
    | p :: ps, c :: s2 => p == c && globMatchAux fuel ps s2
    | _ :: _, [] => false

/-- `fnmatch.fnmatch(name, pat)`. -/
def fnmatchMatch (name pat : String) : Bool :=
  globMatchAux (pat.length + name.length + 1) pat.data name.data

/-- `_ExcludingLocalFilesystem._should_exclude` (storage.py lines 65-76):
a name is excluded when any pattern matches it, or — for directories —
matches it with a trailing separator appended (`os.path.join(name, "")`). -/
def shouldExclude (exclude : List String) (isDir : Bool) (name : String) : Bool :=
  exclude.any (fun pat =>
    fnmatchMatch name pat || (isDir && fnmatchMatch (osPathJoin name "") pat))

/-- `_ExcludingLocalFilesystem.find` (storage.py lines 78-90): the parent
listing (each entry a path with its directory flag) filtered by
`_should_exclude`.  The `detail` dict variant filters identically. -/
def excludingFind (exclude : List String) (listing : List (String × Bool)) :
    List (String × Bool) :=
  listing.filter (fun e => !shouldExclude exclude e.2 e.1)

deriving instance DecidableEq for Except

/-- A concrete storage context (as produced by a construction with
`storage_path="mem://bucket/exp"`), used to instantiate the theorems below. -/
def sampleCtx : StorageContext :=
  { storage_local_path := "/tmp/ray_results"
    storage_path := "mem://bucket/exp"
    experiment_dir_name := "expname"
    trial_dir_name := some "t1"
    current_checkpoint_index := 3
    storage_filesystem := .auto "mem" ""
    storage_fs_path := "bucket/exp"
    storagePfx := .uriPfx "mem" none
    syncer := none }

/-! ## Helper lemmas -/

/-- Claim C8 (code bug): `_is_directory` is documented to raise
`FileNotFoundError` when the path does not exist, but
`fs.get_file_info(path)` returns a `NotFound` info instead of raising
(the same module's `_exists_at_fs_path` relies on that), and
`not file_info.is_file` is then `True`: a missing path is reported as a
directory, with no error.  For existing paths the boolean is correct. -/
theorem is_directory_missing_path_spec :
    exists_at_fs_path { dirs := [], files := [] } "bucket/missing" = false ∧
    is_directory { dirs := [], files := [] } "bucket/missing" = .ok true ∧
    is_directory { dirs := ["bucket/d"], files := [("bucket/f", 3)] } "bucket/d" = .ok true ∧
    is_directory { dirs := ["bucket/d"], files := [("bucket/f", 3)] } "bucket/f" = .ok false :=
  ⟨rfl, rfl, rfl, rfl⟩

theorem splitFirst?_append (sep : List Char) :
    ∀ l a b, splitFirst? sep l = some (a, b) → l = a ++ sep ++ b := by
  intro l
  induction l with
  | nil =>
    intro a b h
    cases sep with
    | nil => simp_all [splitFirst?, List.isPrefixOf]
    | cons c cs => simp_all [splitFirst?, List.isPrefixOf]
  | cons c rest ih =>
    intro a b h
    by_cases hpre : sep.isPrefixOf (c :: rest)
    · rw [splitFirst?, if_pos hpre] at h
      obtain ⟨t, ht⟩ := List.isPrefixOf_iff_prefix.mp hpre
      injection h with h1
      injection h1 with ha hb
      subst ha
      subst hb
      rw [← ht, List.drop_left, List.nil_append]
    · rw [splitFirst?, if_neg hpre] at h
      cases hrec : splitFirst? sep rest with
      | none => rw [hrec] at h; simp at h
      | some p =>
        obtain ⟨a2, b2⟩ := p
        rw [hrec] at h
        simp only [Option.map, Option.some.injEq, Prod.mk.injEq] at h
        obtain ⟨ha, hb⟩ := h
        subst ha
        subst hb
        have := ih a2 b2 hrec
        simp [this]

theorem string_data_eq {s t : String} (h : s.data = t.data) : s = t := by
  cases s
  cases t
  simp_all

theorem data_append (s t : String) : (s ++ t).data = s.data ++ t.data := rfl

theorem parseUri_render {s sch hp : String} {q : Option String}
    (h : parseUri s = some (sch, hp, q)) : s = renderUri sch hp q := by
  unfold parseUri at h
  cases h1 : splitFirst? "://".data s.data with
  | none => rw [h1] at h; exact Option.noConfusion h
  | some p =>
    obtain ⟨schL, restL⟩ := p
    rw [h1] at h
    dsimp only at h
    by_cases hcond : schL ≠ [] ∧ schL.all isSchemeChar = true
    · rw [if_pos hcond] at h
      have hsplit1 := splitFirst?_append "://".data s.data schL restL h1
      cases h2 : splitFirst? "?".data restL with
      | none =>
        rw [h2] at h
        dsimp only at h
        simp only [Option.some.injEq, Prod.mk.injEq] at h
        obtain ⟨hsch, hhp, hq⟩ := h
        subst hsch hhp hq
        apply string_data_eq
        simp only [renderUri, data_append]
        simpa using hsplit1
      | some p2 =>
        obtain ⟨hpL, qL⟩ := p2
        rw [h2] at h
        dsimp only at h
        simp only [Option.some.injEq, Prod.mk.injEq] at h
        obtain ⟨hsch, hhp, hq⟩ := h
        have hsplit2 := splitFirst?_append "?".data restL hpL qL h2
        subst hsch hhp hq
        apply string_data_eq
        simp only [renderUri, data_append]
        rw [hsplit1, hsplit2]
        simp
    · rw [if_neg hcond] at h
      exact Option.noConfusion h

/-- Claim C3: `get_fs_and_path` fails with the invalid-configuration
(`ValueError`) outcome when a URI is combined with an explicit filesystem,
returns the explicit handle and the unchanged path for a bare path, and
auto-resolves a URI given no explicit handle, returning the prefix-stripped
path (the original path is exactly the rendered scheme/path/query). -/
theorem get_fs_and_path_spec (path : String) (fs : FileSystem) :
    (is_uri path = true → get_fs_and_path path (some fs) = .error .valueError) ∧
    (is_uri path = false → get_fs_and_path path (some fs) = .ok (fs, path)) ∧
    (∀ sch hp q, parseUri path = some (sch, hp, q) →
      get_fs_and_path path none = .ok (.auto sch (q.getD ""), hp) ∧
      path = renderUri sch hp q) := by
  refine ⟨?_, ?_, ?_⟩
  · intro h
    unfold get_fs_and_path
    dsimp only
    rw [if_pos h]
  · intro h
    unfold get_fs_and_path
    dsimp only
    rw [if_neg (by simp [h])]
  · intro sch hp q h
    refine ⟨?_, parseUri_render h⟩
    unfold get_fs_and_path fromUri
    dsimp only
    rw [h]

/-- Witness for C3 at the spec's own example inputs. -/
theorem get_fs_and_path_spec_witness :
    get_fs_and_path "s3://bucket/p" (some (.custom 0)) = .error .valueError ∧
    get_fs_and_path "bucket/p" (some (.custom 0)) = .ok (.custom 0, "bucket/p") ∧
    get_fs_and_path "s3://bucket/p" none = .ok (.auto "s3" "", "bucket/p") :=
  ⟨(get_fs_and_path_spec "s3://bucket/p" (.custom 0)).1 rfl,
   (get_fs_and_path_spec "bucket/p" (.custom 0)).2.1 rfl,
   ((get_fs_and_path_spec "s3://bucket/p" (.custom 0)).2.2 "s3" "bucket/p" none rfl).1⟩

theorem createValidationFile_ok {ctx : StorageContext} {env : FsEnv} {st st' : FsState}
    (h : createValidationFile ctx env st = .ok st') :
    st' = createFile (createDir st ctx.experiment_fs_path) (validationFilePath ctx) := by
  unfold createValidationFile at h
  by_cases h1 : env.createDirOk = true
  · rw [if_pos h1] at h
    by_cases h2 : env.openOk = true
    · rw [if_pos h2] at h
      injection h with h3
      exact h3.symm
    · rw [if_neg h2] at h
      exact Except.noConfusion h
  · rw [if_neg h1] at h
    exact Except.noConfusion h

theorem checkValidationFile_createFile (ctx : StorageContext) (st : FsState) :
    checkValidationFile ctx (createFile st (validationFilePath ctx)) = .ok () := by
  have hc : exists_at_fs_path (createFile st (validationFilePath ctx))
      (validationFilePath ctx) = true := by
    simp [exists_at_fs_path, getFileInfoType, createFile]
  unfold checkValidationFile
  rw [if_pos hc]

theorem createValidationFile_openFail {ctx : StorageContext} {env : FsEnv} {st : FsState}
    (h : env.openOk = false) (st' : FsState) : createValidationFile ctx env st ≠ .ok st' := by
  unfold createValidationFile
  intro hcontra
  by_cases h1 : env.createDirOk = true
  · rw [if_pos h1, if_neg (by simp [h])] at hcontra
    exact Except.noConfusion hcontra
  · rw [if_neg h1] at hcontra
    exact Except.noConfusion hcontra

theorem createValidationFile_mkdirFail {ctx : StorageContext} {env : FsEnv} {st : FsState}
    (h : env.createDirOk = false) (st' : FsState) :
    createValidationFile ctx env st ≠ .ok st' := by
  unfold createValidationFile
  intro hcontra
  rw [if_neg (by simp [h])] at hcontra
  exact Except.noConfusion hcontra

/-- Claim C2: `_create_validation_file` creates the experiment directory and
then the zero-byte marker `.validate_storage_marker` directly under it;
`_check_validation_file` succeeds on the resulting state, and on any state
missing the marker it fails with the reachability error carrying
`storage_path`, an error distinct from `FileNotFoundError`. -/
theorem validation_gate_spec (ctx : StorageContext) (env : FsEnv) (st : FsState) :
    (∀ st', createValidationFile ctx env st = .ok st' →
      st' = createFile (createDir st ctx.experiment_fs_path) (validationFilePath ctx) ∧
      (validationFilePath ctx, 0) ∈ st'.files ∧
      checkValidationFile ctx st' = .ok ()) ∧
    (exists_at_fs_path st (validationFilePath ctx) = false →
      checkValidationFile ctx st = .error (.unreachable ctx.storage_path)) ∧
    StorageError.unreachable ctx.storage_path ≠ .notFoundError := by
  refine ⟨?_, ?_, by simp⟩
  · intro st' h
    have hst := createValidationFile_ok h
    subst hst
    exact ⟨rfl, by simp [createFile], checkValidationFile_createFile ctx _⟩
  · intro h
    unfold checkValidationFile
    rw [if_neg (by simp [h])]

/-- Witness for C2: on an initially empty durable filesystem, the check
succeeds right after establishing the marker, and fails with the
reachability error (carrying the storage path) when it was never
established. -/
theorem validation_gate_spec_witness :
    checkValidationFile sampleCtx
      (createFile (createDir { dirs := [], files := [] } sampleCtx.experiment_fs_path)
        (validationFilePath sampleCtx)) = .ok () ∧
    checkValidationFile sampleCtx { dirs := [], files := [] } =
      .error (.unreachable "mem://bucket/exp") :=
  ⟨((validation_gate_spec sampleCtx { createDirOk := true, openOk := true }
      { dirs := [], files := [] }).1 _ rfl).2.2,
   (validation_gate_spec sampleCtx { createDirOk := true, openOk := true }
      { dirs := [], files := [] }).2.1 rfl⟩

/-- Claim C7: after a successful construction, a syncer is present iff a
custom filesystem handle was provided or the resolved storage path differs
from the local cache path. -/
theorem syncer_iff_spec (storage_path? : Option String) (experiment_dir_name : String)
    (sync_config : SyncConfig) (storage_filesystem : Option FileSystem)
    (trial_dir_name : Option String) (idx : Nat) (default_results_dir : String)
    (env : FsEnv) (st : FsState) (ctx : StorageContext) (st' : FsState)
    (h : StorageContext.create storage_path? experiment_dir_name sync_config
      storage_filesystem trial_dir_name idx default_results_dir env st = .ok (ctx, st')) :
    (ctx.syncer ≠ none ↔
      storage_filesystem.isSome = true ∨ ctx.storage_fs_path ≠ ctx.storage_local_path) := by
  simp only [StorageContext.create] at h
  split at h
  · exact Except.noConfusion h
  · rename_i fs fs_path heq
    split at h
    · exact Except.noConfusion h
    · rename_i st2 hval
      split at h
      · exact Except.noConfusion h
      · injection h with h1
        injection h1 with hctx hst
        subst hctx
        by_cases hc : storage_filesystem.isSome || fs_path != default_results_dir
        · simp only [hc, if_true]
          simp only [Bool.or_eq_true, bne_iff_ne] at hc
          simp [hc]
        · simp only [hc, if_false]
          simp only [Bool.or_eq_true, bne_iff_ne] at hc
          push_neg at hc
          simp [hc.1, hc.2]

/-- Witness for C7: a construction against `s3://bucket/p` with the default
local cache `/tmp/ray_results` instantiates a syncer. -/
theorem syncer_iff_spec_witness :
    ({ storage_local_path := "/tmp/ray_results", storage_path := "s3://bucket/p"
       experiment_dir_name := "exp", trial_dir_name := none
       current_checkpoint_index := 0, storage_filesystem := .auto "s3" ""
       storage_fs_path := "bucket/p", storagePfx := .uriPfx "s3" none
       syncer := some { storage_filesystem := .auto "s3" "", sync_period := 300
                        sync_timeout := 1800 } } : StorageContext).syncer ≠ none :=
  (syncer_iff_spec (some "s3://bucket/p") "exp" { sync_period := 300, sync_timeout := 1800 }
    none none 0 "/tmp/ray_results" { createDirOk := true, openOk := true }
    { dirs := [], files := [] } _
    { dirs := ["bucket/p/exp"], files := [("bucket/p/exp/.validate_storage_marker", 0)] }
    rfl).mpr (Or.inr (by decide))

/-- Claim C10: every construction (the same constructor runs in every
process holding a `StorageContext`) writes the zero-byte validation marker
and then immediately checks for it: after a successful construction the
marker exists on the durable filesystem state and the check passes, and
the construction errors when the marker cannot be written (directory
creation or the zero-byte write fails). -/
theorem storage_context_init_validation_spec (storage_path? : Option String)
    (experiment_dir_name : String) (sync_config : SyncConfig)
    (storage_filesystem : Option FileSystem) (trial_dir_name : Option String)
    (idx : Nat) (default_results_dir : String) (env : FsEnv) (st : FsState) :
    (∀ ctx st', StorageContext.create storage_path? experiment_dir_name sync_config
        storage_filesystem trial_dir_name idx default_results_dir env st = .ok (ctx, st') →
      (validationFilePath ctx, 0) ∈ st'.files ∧ checkValidationFile ctx st' = .ok ()) ∧
    (env.openOk = false → ∀ r, StorageContext.create storage_path? experiment_dir_name
        sync_config storage_filesystem trial_dir_name idx default_results_dir env st ≠
          .ok r) ∧
    (env.createDirOk = false → ∀ r, StorageContext.create storage_path?
        experiment_dir_name sync_config storage_filesystem trial_dir_name idx
        default_results_dir env st ≠ .ok r) := by
  refine ⟨?_, ?_, ?_⟩
  · intro ctx st' h
    simp only [StorageContext.create] at h
    split at h
    · exact Except.noConfusion h
    · split at h
      · exact Except.noConfusion h
      · rename_i st2 hval
        split at h
        · exact Except.noConfusion h
        · injection h with h1
          injection h1 with hctx hst
          subst hctx
          subst hst
          have hst2 := createValidationFile_ok hval
          subst hst2
          exact ⟨by simp [createFile], checkValidationFile_createFile _ _⟩
  · intro hopen r hcontra
    simp only [StorageContext.create] at hcontra
    split at hcontra
    · exact Except.noConfusion hcontra
    · split at hcontra
      · exact Except.noConfusion hcontra
      · rename_i st2 hval
        exact createValidationFile_openFail hopen st2 hval
  · intro hmkdir r hcontra
    simp only [StorageContext.create] at hcontra
    split at hcontra
    · exact Except.noConfusion hcontra
    · split at hcontra
      · exact Except.noConfusion hcontra
      · rename_i st2 hval
        exact createValidationFile_mkdirFail hmkdir st2 hval

/-- Witness for C10: the successful construction against `s3://bucket/p`
leaves the marker on the durable filesystem, and the same construction with
a failing marker write is an error. -/
theorem storage_context_init_validation_spec_witness :
    ("bucket/p/exp/.validate_storage_marker", 0) ∈
      (FsState.mk ["bucket/p/exp"] [("bucket/p/exp/.validate_storage_marker", 0)]).files ∧
    StorageContext.create (some "s3://bucket/p") "exp"
      { sync_period := 300, sync_timeout := 1800 } none none 0 "/tmp/ray_results"
      { createDirOk := true, openOk := false } { dirs := [], files := [] } ≠
        .ok ({ storage_local_path := "/tmp/ray_results", storage_path := "s3://bucket/p"
               experiment_dir_name := "exp", trial_dir_name := none
               current_checkpoint_index := 0, storage_filesystem := .auto "s3" ""
               storage_fs_path := "bucket/p", storagePfx := .uriPfx "s3" none
               syncer := some { storage_filesystem := .auto "s3" "", sync_period := 300
                                sync_timeout := 1800 } },
             { dirs := ["bucket/p/exp"],
               files := [("bucket/p/exp/.validate_storage_marker", 0)] }) :=
  ⟨((storage_context_init_validation_spec (some "s3://bucket/p") "exp"
      { sync_period := 300, sync_timeout := 1800 } none none 0 "/tmp/ray_results"
      { createDirOk := true, openOk := true } { dirs := [], files := [] }).1 _ _ rfl).1,
   (storage_context_init_validation_spec (some "s3://bucket/p") "exp"
      { sync_period := 300, sync_timeout := 1800 } none none 0 "/tmp/ray_results"
      { createDirOk := true, openOk := false } { dirs := [], files := [] }).2.1 rfl _⟩

theorem pfxJoin_rstrip {SP : String} {sfs : Option FileSystem} {fs : FileSystem}
    {fs_path : String} (heq : get_fs_and_path SP sfs = .ok (fs, fs_path)) :
    pfxJoin (rstripSubpath SP fs_path) fs_path = SP := by
  unfold get_fs_and_path at heq
  cases sfs with
  | some fs0 =>
    dsimp only at heq
    by_cases huri : is_uri SP = true
    · rw [if_pos huri] at heq
      exact Except.noConfusion heq
    · rw [if_neg (by simp_all)] at heq
      injection heq with h1
      injection h1 with hfs hpath
      subst hpath
      have hparse : parseUri SP = none := by
        have : (parseUri SP).isSome = false := by
          simpa [is_uri] using huri
        exact Option.not_isSome_iff_eq_none.mp (by simp [this])
      unfold rstripSubpath
      rw [hparse]
      dsimp only
      rw [if_pos rfl]
      rfl
  | none =>
    dsimp only at heq
    injection heq with h1
    unfold fromUri at h1
    cases hparse : parseUri SP with
    | none =>
      rw [hparse] at h1
      injection h1 with hfs hpath
      subst hpath
      unfold rstripSubpath
      rw [hparse]
      dsimp only
      rw [if_pos rfl]
      rfl
    | some trip =>
      obtain ⟨sch, hp, q⟩ := trip
      rw [hparse] at h1
      dsimp only at h1
      injection h1 with hfs hpath
      subst hpath
      unfold rstripSubpath
      rw [hparse]
      dsimp only
      rw [if_pos rfl]
      exact (parseUri_render hparse).symm

/-- Claim C9: after a successful construction from a user-supplied
`storage_path` (URI or bare path; the empty string is replaced by the
default), joining the retained `storage_prefix` back onto the
prefix-stripped `storage_fs_path` reproduces `storage_path` byte-for-byte. -/
theorem storage_prefix_roundtrip_spec (sp : String) (experiment_dir_name : String)
    (sync_config : SyncConfig) (storage_filesystem : Option FileSystem)
    (trial_dir_name : Option String) (idx : Nat) (default_results_dir : String)
    (env : FsEnv) (st : FsState) (ctx : StorageContext) (st' : FsState)
    (h : StorageContext.create (some sp) experiment_dir_name sync_config
      storage_filesystem trial_dir_name idx default_results_dir env st = .ok (ctx, st')) :
    pfxJoin ctx.storagePfx ctx.storage_fs_path = ctx.storage_path ∧
    (sp ≠ "" → ctx.storage_path = sp) := by
  simp only [StorageContext.create] at h
  split at h
  · exact Except.noConfusion h
  · rename_i fs fs_path heq
    split at h
    · exact Except.noConfusion h
    · split at h
      · exact Except.noConfusion h
      · injection h with h1
        injection h1 with hctx hst
        subst hctx
        constructor
        · exact pfxJoin_rstrip heq
        · intro hsp
          show resolvedStoragePath (some sp) default_results_dir = sp
          unfold resolvedStoragePath
          dsimp only
          rw [if_neg hsp]

/-- Witness for C9 at the URI `mem://bucket/exp?a=1`. -/
theorem storage_prefix_roundtrip_spec_witness :
    pfxJoin (StoragePfx.uriPfx "mem" (some "a=1")) "bucket/exp" = "mem://bucket/exp?a=1" :=
  have h := storage_prefix_roundtrip_spec "mem://bucket/exp?a=1" "exp"
    { sync_period := 300, sync_timeout := 1800 } none none 0 "/tmp/ray_results"
    { createDirOk := true, openOk := true } { dirs := [], files := [] }
    { storage_local_path := "/tmp/ray_results", storage_path := "mem://bucket/exp?a=1"
      experiment_dir_name := "exp", trial_dir_name := none
      current_checkpoint_index := 0, storage_filesystem := .auto "mem" "a=1"
      storage_fs_path := "bucket/exp", storagePfx := .uriPfx "mem" (some "a=1")
      syncer := some { storage_filesystem := .auto "mem" "a=1", sync_period := 300
                       sync_timeout := 1800 } }
    { dirs := ["bucket/exp/exp"],
      files := [("bucket/exp/exp/.validate_storage_marker", 0)] } rfl
  h.1

/-- Claim C1 (amended to layouts whose checkpoint path is defined, i.e.
`trial_dir_name` is set): `persist_current_checkpoint` first checks the
validation marker and fails fast with the reachability error, leaving both
filesystems untouched, when it is absent; then creates the checkpoint
directory on the durable filesystem (a failure there propagates as-is);
then copies the checkpoint payload (a failure there propagates as-is,
after the directory creation); and on success returns the new handle
`(storage_filesystem, checkpoint_fs_path)`.  In every case the source
filesystem is never modified (the source checkpoint is not deleted). -/
theorem persist_current_checkpoint_spec (ctx : StorageContext) (cp : Checkpoint)
    (w : PersistWorld) (ckpt : String) (hck : ctx.checkpoint_fs_path = .ok ckpt) :
    (ctx.persist_current_checkpoint cp w).2.source = w.source ∧
    (exists_at_fs_path w.durable (validationFilePath ctx) = false →
      ctx.persist_current_checkpoint cp w = (.error (.unreachable ctx.storage_path), w)) ∧
    (exists_at_fs_path w.durable (validationFilePath ctx) = true →
      w.createDirOk = false →
      ctx.persist_current_checkpoint cp w = (.error .ioError, w)) ∧
    (exists_at_fs_path w.durable (validationFilePath ctx) = true →
      w.createDirOk = true → w.copyOk = false →
      ctx.persist_current_checkpoint cp w =
        (.error .transferError, { w with durable := createDir w.durable ckpt })) ∧
    (exists_at_fs_path w.durable (validationFilePath ctx) = true →
      w.createDirOk = true → w.copyOk = true →
      ctx.persist_current_checkpoint cp w =
        (.ok { filesystem := ctx.storage_filesystem, path := ckpt },
         { w with durable := copyInto (createDir w.durable ckpt) w.source cp.path ckpt })) := by
  by_cases hm : exists_at_fs_path w.durable (validationFilePath ctx) = true <;>
    by_cases hcd : w.createDirOk = true <;>
    by_cases hcp : w.copyOk = true <;>
    refine ⟨?_, ?_, ?_, ?_, ?_⟩ <;>
    simp_all [StorageContext.persist_current_checkpoint, checkValidationFile, hck]

/-- A concrete world for the persist theorems: empty durable filesystem (no
validation marker), a source checkpoint with one file, all operations able
to succeed. -/
def sampleWorld : PersistWorld :=
  { durable := { dirs := [], files := [] }
    source := { dirs := ["/tmp/ckpt"], files := [("/tmp/ckpt/a.bin", 4)] }
    createDirOk := true
    copyOk := true }

/-- Counterexample to C1 as stated: on a layout whose `trial_dir_name` is
unset and whose validation marker is absent, `persist_current_checkpoint`
does not perform the validation-marker check first — the `logger.info`
call evaluates `checkpoint_fs_path` and raises the trial-unset
configuration error instead of the reachability error. -/
theorem persist_claim_counterexample :
    exists_at_fs_path sampleWorld.durable
      (validationFilePath { sampleCtx with trial_dir_name := none }) = false ∧
    (StorageContext.persist_current_checkpoint { sampleCtx with trial_dir_name := none }
        { filesystem := .localFS, path := "/tmp/ckpt" } sampleWorld).1 =
      .error .trialUnset ∧
    StorageError.trialUnset ≠ .unreachable "mem://bucket/exp" :=
  ⟨rfl, rfl, by simp⟩

/-- Witness for C1: on `sampleCtx` (trial set) with the marker absent, the
persist fails fast with the reachability error and the world is untouched. -/
theorem persist_current_checkpoint_spec_witness :
    StorageContext.persist_current_checkpoint sampleCtx
      { filesystem := .localFS, path := "/tmp/ckpt" } sampleWorld =
      (.error (.unreachable "mem://bucket/exp"), sampleWorld) :=
  (persist_current_checkpoint_spec sampleCtx
    { filesystem := .localFS, path := "/tmp/ckpt" } sampleWorld
    "bucket/exp/expname/t1/checkpoint_000003" rfl).2.1 rfl

/-- Counterexample to C4 as stated.  First: a failing download of a single
file to a fresh destination leaves the partially-written file in place —
`shutil.rmtree(local_path, ignore_errors=True)` raises
`NotADirectoryError` on a regular file and `ignore_errors` swallows it, so
the destination path exists afterwards.  Second: a failing download into a
pre-existing directory destination does not keep the prior contents
untouched — the partial copy has already overwritten them and no cleanup
runs. -/
theorem download_claim_counterexample :
    (download_from_fs_path (.file 7) { entry := none, parentExists := false }
        { fails := true, dirWritten := [], fileWritten := some 3 }).1 =
      .error .transferError ∧
    (download_from_fs_path (.file 7) { entry := none, parentExists := false }
        { fails := true, dirWritten := [], fileWritten := some 3 }).2.entry =
      some (.file 3) ∧
    (download_from_fs_path (.dir [("a", 1)])
        { entry := some (.dir [("old", 5)]), parentExists := true }
        { fails := true, dirWritten := [("a", 1)], fileWritten := none }).2.entry =
      some (.dir [("a", 1)]) :=
  ⟨rfl, rfl, rfl⟩

/-- Claim C4 (amended): on any copy failure the error propagates (never an
`ok`), the destination's parent directories have been created and are not
rolled back, and the cleanup behaves as follows: a destination that did
not exist before the call is removed when the source was treated as a
directory; for a single-file download it retains exactly what the failed
copy wrote (`rmtree` ignores non-directories); a pre-existing destination
is never removed by the cleanup, though its contents may have been
partially overwritten by the failed copy. -/
theorem download_cleanup_spec (src : SrcEntry) (st : LocalDest) (outcome : CopyOutcome)
    (hfail : outcome.fails = true) :
    ((download_from_fs_path src st outcome).2.parentExists = true) ∧
    (∀ u, (download_from_fs_path src st outcome).1 ≠ .ok u) ∧
    (st.entry = none → srcTreatedAsDir src = true →
      (download_from_fs_path src st outcome).2.entry = none) ∧
    (∀ c, st.entry = none → src = .file c →
      (download_from_fs_path src st outcome).2.entry =
        outcome.fileWritten.map LocalEntry.file) ∧
    (st.entry.isSome = true → (download_from_fs_path src st outcome).2.entry.isSome = true) := by
  obtain ⟨e, pe⟩ := st
  obtain ⟨fails, dw, fw⟩ := outcome
  simp only at hfail
  subst hfail
  rcases src with c | contents | _ <;>
    rcases e with _ | ⟨v | cs⟩ <;>
    refine ⟨?_, ?_, ?_, ?_, ?_⟩ <;>
    simp_all [download_from_fs_path, download_copy, srcTreatedAsDir, rmtreeIgnoreErrors] <;>
    cases fw <;> simp_all

/-- Witness for C4: a failing directory download to a fresh destination is
fully cleaned up (the destination does not exist afterwards). -/
theorem download_cleanup_spec_witness :
    (download_from_fs_path (.dir [("a", 1)]) { entry := none, parentExists := false }
        { fails := true, dirWritten := [("x", 9)], fileWritten := none }).2.entry = none :=
  (download_cleanup_spec (.dir [("a", 1)]) { entry := none, parentExists := false }
    { fails := true, dirWritten := [("x", 9)], fileWritten := none } rfl).2.2.1 rfl rfl

/-- Claim C6: with a non-empty exclude list (the only case in which
`_ExcludingLocalFilesystem` is used for an upload), an entry survives the
filtered source listing iff it was in the listing and no pattern matches
its path under shell-glob semantics, where a directory is additionally
tested with a trailing separator appended; all non-matching entries are
retained. -/
theorem exclude_filter_spec (exclude : List String) (listing : List (String × Bool))
    (name : String) (isDir : Bool) (_hne : exclude ≠ []) :
    ((name, isDir) ∈ excludingFind exclude listing ↔
      ((name, isDir) ∈ listing ∧
        ¬ ∃ pat ∈ exclude, fnmatchMatch name pat = true ∨
          (isDir = true ∧ fnmatchMatch (osPathJoin name "") pat = true))) := by
  unfold excludingFind shouldExclude
  rw [List.mem_filter]
  simp [List.any_eq_true]

/-- Witness for C6: with exclude pattern `logs/*`, the directory `logs` is
omitted (its slash-suffixed form matches) while `data` is retained. -/
theorem exclude_filter_spec_witness :
    ("data", false) ∈ excludingFind ["logs/*"] [("logs", true), ("data", false)] ∧
    ("logs", true) ∉ excludingFind ["logs/*"] [("logs", true), ("data", false)] :=
  ⟨(exclude_filter_spec ["logs/*"] [("logs", true), ("data", false)] "data" false
      (by decide)).mpr ⟨by decide, by decide⟩,
   fun hmem =>
     by
      have h := (exclude_filter_spec ["logs/*"] [("logs", true), ("data", false)] "logs" true
        (by decide)).mp hmem
      exact h.2 ⟨"logs/*", by decide, Or.inr ⟨rfl, by decide⟩⟩⟩
